import Mathlib

/-!
Verification of the osm_to_parquet decoding pipeline.

Shallow embedding of `src/osmpq/osm/elements.py`, `src/osmpq/osm/blob.py`
and `src/osmpq/arrow.py`.  Python ints are modelled as `Int`/`Nat`, float
literals as exact rationals (`ℚ`), Python dicts as insertion-ordered
association lists, generators as eagerly produced lists, and raised
exceptions as `Except String`.
-/

deriving instance DecidableEq for Except

namespace Osmpq

/-! ### Element model (src/osmpq/osm/types.py)

`OsmTags = dict[str, str]` is modelled as an insertion-ordered association
list, mirroring Python dict semantics: assignment to an existing key
updates in place, a new key is appended. -/

abbrev OsmTags := List (String × String)

def tagsInsert (tags : OsmTags) (k v : String) : OsmTags :=
  if tags.any (fun p => p.1 = k) then
    tags.map (fun p => if p.1 = k then (k, v) else p)
  else
    tags ++ [(k, v)]

structure OsmInfo where
  version : Option Int
  timestamp : Option Int
  changeset : Option Int
  uid : Option Int
  user_sid : Option String
deriving DecidableEq

/-- `OsmNode` declares `latitude: float`, but the dense decoding path stores
`lat or None` (a raw int or `None`), so the fields are modelled as optional
rationals. -/
structure OsmNode where
  id : Int
  info : OsmInfo
  tags : Option OsmTags
  latitude : Option ℚ
  longitude : Option ℚ
deriving DecidableEq

/-! ### Protobuf message records used by the decoder

The generated protobuf modules (`osmpq/protos/osmformat_pb2.py`) are not part
of src/.  Modelled from the spec: a primitive block carries `granularity`
(default 100), `lat_offset`/`lon_offset` (default 0), `date_granularity`
(default 1000) and a string table; an unset scalar field reads as 0, and the
`Info`/`DenseInfo`/`DenseNodes` messages carry the integer fields the decoder
reads. -/

structure PrimitiveBlock where
  granularity : Int
  lat_offset : Int
  lon_offset : Int
  date_granularity : Int
deriving DecidableEq

structure Info where
  version : Int
  timestamp : Int
  changeset : Int
  uid : Int
  user_sid : Int
deriving DecidableEq

structure DenseInfo where
  version : List Int
  timestamp : List Int
  changeset : List Int
  uid : List Int
  user_sid : List Int
deriving DecidableEq

structure DenseNodes where
  id : List Int
  denseinfo : DenseInfo
  keys_vals : List Int
  lat : List Int
  lon : List Int
deriving DecidableEq

/-! ### src/osmpq/osm/elements.py -/

/-- The loop body of `delta_decode` (src/osmpq/osm/elements.py:23-27).
Note the source accumulates `current += value` but yields `value`. -/
def delta_decode.go (current : Int) : List Int → List Int
  | [] => []
  | value :: values => value :: delta_decode.go (current + value) values

def delta_decode (values : List Int) : List Int :=
  delta_decode.go 0 values

/-- `ValueDecoder` (src/osmpq/osm/elements.py:30-44). -/
structure ValueDecoder where
  granularity : Int
  lat_offset : Int
  lon_offset : Int
  date_granularity : Int
deriving DecidableEq

/-- `ValueDecoder.__init__`: each parameter is `block.field or default`
(Python truthiness: 0 falls back to the default). -/
def ValueDecoder.ofBlock (block : PrimitiveBlock) : ValueDecoder :=
  { granularity := if block.granularity = 0 then 100 else block.granularity,
    lat_offset := if block.lat_offset = 0 then 0 else block.lat_offset,
    lon_offset := if block.lon_offset = 0 then 0 else block.lon_offset,
    date_granularity := if block.date_granularity = 0 then 1000 else block.date_granularity }

/-- `ValueDecoder.lat`: `0.000000001 * (self.lat_offset + (self.granularity * value))`,
with the float literal modelled as the exact rational 10⁻⁹. -/
def ValueDecoder.lat (self : ValueDecoder) (value : Int) : ℚ :=
  (1 / 1000000000 : ℚ) * ((self.lat_offset : ℚ) + (self.granularity : ℚ) * (value : ℚ))

def ValueDecoder.lon (self : ValueDecoder) (value : Int) : ℚ :=
  (1 / 1000000000 : ℚ) * ((self.lon_offset : ℚ) + (self.granularity : ℚ) * (value : ℚ))

def ValueDecoder.timestamp (self : ValueDecoder) (value : Int) : Int :=
  value * self.date_granularity

/-- `PrimitiveBlockDecoder` (src/osmpq/osm/elements.py:47-51): holds the
decoded string table and a `ValueDecoder` for the block. -/
structure PrimitiveBlockDecoder where
  string_table : List String
  value_decoder : ValueDecoder

/-- `decode_string`: `self.string_table[index]` with Python list-index
semantics (a negative index counts from the end; out of range raises). -/
def PrimitiveBlockDecoder.decode_string (self : PrimitiveBlockDecoder) (index : Int) :
    Except String String :=
  let j : Int := if index < 0 then index + (self.string_table.length : Int) else index
  if 0 ≤ j then
    match self.string_table.get? j.toNat with
    | some s => Except.ok s
    | none => Except.error ("list index out of range")
  else
    Except.error ("list index out of range")

/-- `decode_info` (src/osmpq/osm/elements.py:56-63): each field is
`raw or None`, i.e. a raw 0 becomes `None`; `user_sid` is additionally
resolved through the string table when nonzero. -/
def PrimitiveBlockDecoder.decode_info (self : PrimitiveBlockDecoder) (info : Info) :
    Except String OsmInfo :=
  match (if info.user_sid = 0 then Except.ok none
         else (self.decode_string info.user_sid).map some) with
  | Except.error e => Except.error e
  | Except.ok us =>
    Except.ok
      { version := if info.version = 0 then none else some info.version,
        timestamp := if info.timestamp = 0 then none else some info.timestamp,
        changeset := if info.changeset = 0 then none else some info.changeset,
        uid := if info.uid = 0 then none else some info.uid,
        user_sid := us }

/-- Five-way `zip`, truncating at the shortest input like Python's `zip`. -/
def zip5 {α₁ α₂ α₃ α₄ α₅ : Type} :
    List α₁ → List α₂ → List α₃ → List α₄ → List α₅ →
      List (α₁ × α₂ × α₃ × α₄ × α₅)
  | [], _, _, _, _ => []
  | _ :: _, [], _, _, _ => []
  | _ :: _, _ :: _, [], _, _ => []
  | _ :: _, _ :: _, _ :: _, [], _ => []
  | _ :: _, _ :: _, _ :: _, _ :: _, [] => []
  | a :: as, b :: bs, c :: cs, d :: ds, e :: es =>
      (a, b, c, d, e) :: zip5 as bs cs ds es

/-- Eager run of a generator comprehension that can raise: the first raised
exception aborts, otherwise all produced values are collected in order. -/
def mapExcept {α β : Type} (f : α → Except String β) : List α → Except String (List β)
  | [] => Except.ok []
  | x :: xs =>
    match f x with
    | Except.error e => Except.error e
    | Except.ok y =>
      match mapExcept f xs with
      | Except.error e => Except.error e
      | Except.ok ys => Except.ok (y :: ys)

/-- The `OsmInfo` constructed for one dense record in the loop body of
`decode_dense_info` (src/osmpq/osm/elements.py:87-93). -/
def PrimitiveBlockDecoder.decode_dense_info_one (self : PrimitiveBlockDecoder)
    (version timestamp changeset uid user_sid : Int) : Except String OsmInfo :=
  match (if user_sid = 0 then Except.ok none
         else (self.decode_string user_sid).map some) with
  | Except.error e => Except.error e
  | Except.ok us =>
    Except.ok
      { version := if version = 0 then none else some version,
        timestamp := if timestamp = 0 then none else some timestamp,
        changeset := if changeset = 0 then none else some changeset,
        uid := if uid = 0 then none else some uid,
        user_sid := us }

/-- `decode_dense_info` (src/osmpq/osm/elements.py:79-93): zips the plain
`version` list with the `delta_decode` streams of the other four fields. -/
def PrimitiveBlockDecoder.decode_dense_info (self : PrimitiveBlockDecoder)
    (dense : DenseInfo) : Except String (List OsmInfo) :=
  mapExcept
    (fun q => self.decode_dense_info_one q.1 q.2.1 q.2.2.1 q.2.2.2.1 q.2.2.2.2)
    (zip5 dense.version (delta_decode dense.timestamp) (delta_decode dense.changeset)
      (delta_decode dense.uid) (delta_decode dense.user_sid))

/-- The loop of `decode_dense_tags` (src/osmpq/osm/elements.py:95-108), run to
completion.  `tags` is the single mutable dict of the source; note that after
a yield it is NOT re-created, and on exhaustion the source asserts
`not tags`.  Yielded values are snapshots of the dict at yield time. -/
def decode_dense_tags.go (self : PrimitiveBlockDecoder) :
    List Int → OsmTags → Except String (List OsmTags)
  | [], tags =>
    if tags = [] then Except.ok [] else Except.error ("assert not tags")
  | kv :: rest, tags =>
    if kv = 0 then
      match decode_dense_tags.go self rest tags with
      | Except.error e => Except.error e
      | Except.ok more => Except.ok (tags :: more)
    else
      match self.decode_string kv with
      | Except.error e => Except.error e
      | Except.ok key =>
        match rest with
        | [] => Except.error ("list index out of range")
        | v :: rest2 =>
          match self.decode_string v with
          | Except.error e => Except.error e
          | Except.ok value =>
            decode_dense_tags.go self rest2 (tagsInsert tags key value)

def PrimitiveBlockDecoder.decode_dense_tags (self : PrimitiveBlockDecoder)
    (keys_vals : List Int) : Except String (List OsmTags) :=
  decode_dense_tags.go self keys_vals []

/-- `decode_dense_nodes` (src/osmpq/osm/elements.py:110-124).  Note the source
body: `latitude=lat or None` and `longitude=lon or None` store the raw
delta-decoded integers — `self.value_decoder` is never consulted. -/
def PrimitiveBlockDecoder.decode_dense_nodes (self : PrimitiveBlockDecoder)
    (dense : DenseNodes) : Except String (List OsmNode) :=
  match self.decode_dense_info dense.denseinfo with
  | Except.error e => Except.error e
  | Except.ok infos =>
    match self.decode_dense_tags dense.keys_vals with
    | Except.error e => Except.error e
    | Except.ok tagsList =>
      Except.ok
        ((zip5 (delta_decode dense.id) infos tagsList (delta_decode dense.lat)
            (delta_decode dense.lon)).map
          (fun q =>
            match q with
            | (id, info, tags, lat, lon) =>
              { id := id,
                info := info,
                tags := if tags = [] then none else some tags,
                latitude := if lat = 0 then none else some (lat : ℚ),
                longitude := if lon = 0 then none else some (lon : ℚ) }))

/-! ### src/osmpq/osm/blob.py -/

/-- The input byte stream: a `BinaryIO` positioned at its current offset,
modelled by the suffix of bytes still unread. -/
structure ByteStream where
  data : List Nat
deriving DecidableEq

/-- `source.read(n)`: returns up to `n` bytes (fewer when the stream is
short) and advances the position. -/
def ByteStream.read (source : ByteStream) (n : Nat) : List Nat × ByteStream :=
  (source.data.take n, ⟨source.data.drop n⟩)

/-- `int.from_bytes(data, "big")` for any number of bytes. -/
def int_from_bytes_be (data : List Nat) : Nat :=
  data.foldl (fun acc b => acc * 256 + b) 0

/-- Modelled from the spec: the generated protobuf module
`osmpq/protos/fileformat_pb2.py` is not under src/.  Per spec §3 the frame
"Header declares a `type` string and a `datasize` that bounds the payload";
the protobuf wire format puts `type` in field 1 (length-delimited) and
`datasize` in field 3 (varint), both required.  `type` is kept as raw bytes. -/
structure BlobHeader where
  type : List Nat
  datasize : Nat
deriving DecidableEq

/-- Base-128 varint: value and remaining bytes, `none` on a truncated
varint. -/
def readVarint : List Nat → Option (Nat × List Nat)
  | [] => none
  | b :: rest =>
    if b < 128 then some (b, rest)
    else
      match readVarint rest with
      | some (v, rest2) => some (b % 128 + 128 * v, rest2)
      | none => none

structure RawHeaderFields where
  type : Option (List Nat)
  datasize : Option Nat

/-- Protobuf field loop for `BlobHeader` (last occurrence of a field wins);
`fuel` bounds the iteration count by the byte length, each step consuming at
least one byte. -/
def parseBlobHeaderFields : Nat → List Nat → RawHeaderFields → Option RawHeaderFields
  | _, [], acc => some acc
  | 0, _ :: _, _ => none
  | fuel + 1, bytes, acc =>
    match readVarint bytes with
    | none => none
    | some (key, rest) =>
      if key % 8 = 0 then
        match readVarint rest with
        | none => none
        | some (v, rest2) =>
          parseBlobHeaderFields fuel rest2
            (if key / 8 = 3 then { acc with datasize := some v } else acc)
      else if key % 8 = 2 then
        match readVarint rest with
        | none => none
        | some (len, rest2) =>
          if len ≤ rest2.length then
            parseBlobHeaderFields fuel (rest2.drop len)
              (if key / 8 = 1 then { acc with type := some (rest2.take len) } else acc)
          else none
      else none

/-- `BlobHeader.FromString`: parse fails on malformed bytes or when a
required field (`type`, `datasize`) is missing. -/
def BlobHeader.FromString (data : List Nat) : Except String BlobHeader :=
  match parseBlobHeaderFields data.length data { type := none, datasize := none } with
  | none => Except.error ("failed to parse BlobHeader")
  | some acc =>
    match acc.type, acc.datasize with
    | some t, some d => Except.ok { type := t, datasize := d }
    | _, _ => Except.error ("required field missing in BlobHeader")

/-- `BlobData` (src/osmpq/osm/blob.py:22-26). -/
structure BlobData where
  header : BlobHeader
  header_data : List Nat
  blob_data : List Nat
deriving DecidableEq

/-- `read_blob_data` (src/osmpq/osm/blob.py:29-41): returns `none` for clean
end-of-stream, otherwise the frame and the advanced stream; a header parse
failure propagates as an exception. -/
def read_blob_data (source : ByteStream) : Except String (Option BlobData × ByteStream) :=
  let r1 := source.read 4
  if r1.1.length = 0 then
    Except.ok (none, r1.2)
  else
    let header_size := int_from_bytes_be r1.1
    let r2 := r1.2.read header_size
    match BlobHeader.FromString r2.1 with
    | Except.error e => Except.error e
    | Except.ok blob_header =>
      let r3 := r2.2.read blob_header.datasize
      Except.ok (some { header := blob_header, header_data := r2.1, blob_data := r3.1 }, r3.2)

/-- The `oneof data` of the `Blob` message.  Modelled partly from the spec
(`fileformat_pb2` is not under src/): spec §3 makes `CompressedPayload` a
tagged union over raw / deflate / modern block codec; `unset` stands for
`WhichOneof` returning `None` (or any variant the `match` default catches). -/
inductive BlobOneof where
  | raw (b : List Nat)
  | zlib_data (b : List Nat)
  | zstd_data (b : List Nat)
  | unset
deriving DecidableEq

def isError {α : Type} : Except String α → Bool
  | Except.error _ => true
  | Except.ok _ => false

/-- `decompress_blob` (src/osmpq/osm/blob.py:52-61), parameterized by the
external `zlib.decompress` and `zstd.decompress` routines (each may fail on a
corrupt stream). -/
def decompress_blob (zlibDecompress zstdDecompress : List Nat → Except String (List Nat)) :
    BlobOneof → Except String (List Nat)
  | BlobOneof.raw b => Except.ok b
  | BlobOneof.zlib_data b => zlibDecompress b
  | BlobOneof.zstd_data b => zstdDecompress b
  | BlobOneof.unset => Except.error ("Blob has no data")

/-! ### src/osmpq/arrow.py -/

/-- `WriterConfig` (src/osmpq/arrow.py:185-189). -/
structure WriterConfig where
  max_rows_per_group : Option Nat := none
  max_rows_per_file : Option Nat := none
  max_file_size : Option Nat := none
deriving DecidableEq

/-- `Writer` (src/osmpq/arrow.py:192-205): the filename embeds the file
index, which stands in for it; the wrapped `pq.ParquetWriter` is external
I/O. -/
structure Writer where
  file_index : Nat
  written_rows : Nat
  written_batches : Nat
deriving DecidableEq

/-- `Writer.write`: appends a batch and bumps the counters. -/
def Writer.write (self : Writer) (num_rows : Nat) : Writer :=
  { self with
    written_rows := self.written_rows + num_rows,
    written_batches := self.written_batches + 1 }

/-- `ParquetBatchWriter` state (src/osmpq/arrow.py:208-221): the filesystem,
paths, schema and unique id are external; a batch is represented by its row
count (`None` for a `None` batch). -/
structure ParquetBatchWriter where
  writer_config : WriterConfig
  file_index : Nat
  writer : Option Writer
deriving DecidableEq

/-- `__init__`: `self._file_index = 0`, `self._writer = None`. -/
def ParquetBatchWriter.init (config : WriterConfig) : ParquetBatchWriter :=
  { writer_config := config, file_index := 0, writer := none }

/-- `_get_writer` (src/osmpq/arrow.py:223-240): lazily opens a new file with
a freshly incremented index. -/
def ParquetBatchWriter.get_writer (self : ParquetBatchWriter) :
    ParquetBatchWriter × Writer :=
  match self.writer with
  | some w => (self, w)
  | none =>
    let idx := self.file_index + 1
    let w : Writer := { file_index := idx, written_rows := 0, written_batches := 0 }
    ({ self with file_index := idx, writer := some w }, w)

/-- `_should_switch_writer` (src/osmpq/arrow.py:250-261).  `file_size` is the
externally probed `fs.get_file_info(filename).size`.  The rows trigger uses
Python truthiness (`if max_rows_per_file:`), the size trigger an explicit
`is not None` and a probe only every 10th batch; falling through returns
`None`, i.e. falsy. -/
def ParquetBatchWriter.should_switch_writer (self : ParquetBatchWriter)
    (file_size : Nat) : Bool :=
  match self.writer with
  | none => false
  | some w =>
    (match self.writer_config.max_rows_per_file with
     | some m => decide (m ≠ 0) && decide (m ≤ w.written_rows)
     | none => false) ||
    (match self.writer_config.max_file_size with
     | some sz => decide (w.written_batches % 10 = 0) && decide (sz ≤ file_size)
     | none => false)

/-- `close` (src/osmpq/arrow.py:263-266): closes the physical writer (external
I/O) and clears the state; a no-op when nothing is open. -/
def ParquetBatchWriter.close (self : ParquetBatchWriter) : ParquetBatchWriter :=
  { self with writer := none }

/-- `write` (src/osmpq/arrow.py:242-248). -/
def ParquetBatchWriter.write (self : ParquetBatchWriter) (batch : Option Nat)
    (file_size : Nat) : ParquetBatchWriter :=
  match batch with
  | none => self
  | some num_rows =>
    let r := self.get_writer
    let s := { r.1 with writer := some (r.2.write num_rows) }
    if s.should_switch_writer file_size then s.close else s

/-- A run of `write` calls from a fresh writer; each operation carries the
batch and the probed file size at that moment. -/
def ParquetBatchWriter.writes (config : WriterConfig)
    (ops : List (Option Nat × Nat)) : ParquetBatchWriter :=
  ops.foldl (fun s op => s.write op.1 op.2) (ParquetBatchWriter.init config)

/-! ### Concrete inputs used by the claim theorems -/

def decoderC2 : PrimitiveBlockDecoder :=
  { string_table := [""],
    value_decoder := ValueDecoder.ofBlock
      { granularity := 100, lat_offset := 0, lon_offset := 0, date_granularity := 1000 } }

def denseC2 : DenseNodes :=
  { id := [1],
    denseinfo := { version := [1], timestamp := [1], changeset := [1], uid := [1], user_sid := [0] },
    keys_vals := [0],
    lat := [1234567890],
    lon := [1] }

def decoderC3 : PrimitiveBlockDecoder :=
  { string_table := ["s0", "s1", "s2", "s3", "s4", "s5", "s6"],
    value_decoder := ValueDecoder.ofBlock
      { granularity := 0, lat_offset := 0, lon_offset := 0, date_granularity := 0 } }

def decoderC7 : PrimitiveBlockDecoder :=
  { string_table := ["", "alice"],
    value_decoder := ValueDecoder.ofBlock
      { granularity := 0, lat_offset := 0, lon_offset := 0, date_granularity := 0 } }

def infoC7 : Info :=
  { version := 2, timestamp := 0, changeset := 7, uid := 0, user_sid := 1 }

def oiC7 : OsmInfo :=
  { version := some 2, timestamp := none, changeset := some 7, uid := none,
    user_sid := some ("alice") }

def denseC7 : DenseInfo :=
  { version := [1], timestamp := [5], changeset := [0], uid := [9], user_sid := [1] }

def oiDenseC7 : OsmInfo :=
  { version := some 1, timestamp := some 5, changeset := none, uid := some 9,
    user_sid := some ("alice") }

/-! ### Helper lemmas -/

theorem delta_decode_go_eq (current : Int) (values : List Int) :
    delta_decode.go current values = values := by
  induction values generalizing current with
  | nil => rfl
  | cons v vs ih => simp [delta_decode.go, ih]

theorem delta_decode_eq (values : List Int) : delta_decode values = values :=
  delta_decode_go_eq 0 values

/-! ### Claim theorems -/

/-- Claim C1 (code bug): delta decoding is claimed to yield the running
cumulative sums starting from 0, so `[5, -2, 3]` should decode to
`[5, 3, 6]`.  The source of `delta_decode` accumulates `current += value`
but yields the raw `value`, so the deltas come back unchanged. -/
theorem C1_delta_decode_yields_raw_deltas :
    delta_decode [5, -2, 3] = [5, -2, 3] ∧
    delta_decode [5, -2, 3] ≠ [5, 3, 6] ∧
    delta_decode ([] : List Int) = [] := by
  decide

/-- Claim C2 (code bug): decoded latitude is claimed to be
`1e-9 * (lat_offset + granularity * value)`, which for granularity 100,
offset 0 and raw value 1234567890 is 123.456789.  `ValueDecoder.lat` does
implement that formula, but `decode_dense_nodes` stores the raw integer
(`latitude=lat or None`) without ever scaling it. -/
theorem C2_dense_latitude_not_scaled :
    (decoderC2.decode_dense_nodes denseC2).map (fun ns => ns.map OsmNode.latitude) =
      Except.ok [some (1234567890 : ℚ)] ∧
    decoderC2.value_decoder.lat 1234567890 = (123456789 : ℚ) / 1000000 ∧
    (1234567890 : ℚ) ≠ (123456789 : ℚ) / 1000000 := by
  refine ⟨by decide, ?_, by norm_num⟩
  norm_num [decoderC2, ValueDecoder.lat, ValueDecoder.ofBlock]

/-- Claim C3 (code bug): on the spec's flat sequence `[1,2,0,0,3,4,5,6,0]`
the decoder is claimed to yield the three maps {s1: s2}, {}, {s3: s4, s5: s6}.
The source never re-creates the `tags` dict after a yield, so run to
completion it trips its own `assert not tags` on exactly this input, and it
does not produce the claimed maps. -/
theorem C3_dense_tags_assert_fails :
    decoderC3.decode_dense_tags [1, 2, 0, 0, 3, 4, 5, 6, 0] =
      Except.error ("assert not tags") ∧
    decoderC3.decode_dense_tags [1, 2, 0, 0, 3, 4, 5, 6, 0] ≠
      Except.ok [[("s1", "s2")], [], [("s3", "s4"), ("s5", "s6")]] := by
  decide

/-- Claim C4: with `max_rows_per_file = 1000` and no size trigger, four
successive 400-row batches rotate exactly once — after the third batch
(cumulative 1200 ≥ 1000) — producing exactly two output files. -/
theorem C4_rotation_after_third_batch :
    let config : WriterConfig := { max_rows_per_file := some 1000 }
    let s1 := (ParquetBatchWriter.init config).write (some 400) 0
    let s2 := s1.write (some 400) 0
    let s3 := s2.write (some 400) 0
    let s4 := s3.write (some 400) 0
    s1.writer.map Writer.written_rows = some 400 ∧
    s1.writer.map Writer.file_index = some 1 ∧
    s2.writer.map Writer.written_rows = some 800 ∧
    s2.writer.map Writer.file_index = some 1 ∧
    s3.writer = none ∧
    s4.writer.map Writer.written_rows = some 400 ∧
    s4.writer.map Writer.file_index = some 2 ∧
    s4.file_index = 2 := by
  decide

/-- Claim C5 counterexample: a stream whose header is well formed
(`datasize = 5`) but whose payload has only 2 bytes left is returned as a
successful frame with the short payload — not a fatal framing error. -/
theorem C5_short_payload_read_not_fatal :
    (read_blob_data ⟨[0, 0, 0, 5, 10, 1, 120, 24, 5, 1, 2]⟩).map
        (fun r => r.1.map (fun bd => (bd.header.datasize, bd.blob_data.length))) =
      Except.ok (some (5, 2)) := by
  decide

/-- Claim C5 (amended): `read_blob_data` signals clean end-of-stream (a
`none` frame) if and only if the 4-byte prefix read returns zero bytes, i.e.
iff the stream is already exhausted; short reads elsewhere are not detected
as framing errors (a short payload read yields a successful frame with a
payload shorter than `datasize`, see the counterexample). -/
theorem C5_eos_iff_stream_empty (source : ByteStream) :
    (read_blob_data source).toOption.map Prod.fst = some none ↔ source.data = [] := by
  obtain ⟨data⟩ := source
  cases data with
  | nil =>
    constructor
    · intro _; rfl
    · intro _; rfl
  | cons b rest =>
    constructor
    · intro h
      exfalso
      have hcond : ¬(((⟨b :: rest⟩ : ByteStream).read 4).1.length = 0) := by
        simp [ByteStream.read]
      simp only [read_blob_data, if_neg hcond] at h
      split at h
      · simp [Except.toOption] at h
      · simp [Except.toOption] at h
    · intro h
      cases h

/-- Claim C6: `decompress_blob` returns the raw bytes unchanged for the
uncompressed variant, and fails exactly when no variant is set or the
decompression of the set compressed variant fails — for any behavior of the
external zlib/zstd decompressors. -/
theorem C6_decompress_blob_error_iff
    (zlibDecompress zstdDecompress : List Nat → Except String (List Nat)) :
    (∀ b : List Nat,
       decompress_blob zlibDecompress zstdDecompress (BlobOneof.raw b) = Except.ok b) ∧
    (∀ blob : BlobOneof,
       isError (decompress_blob zlibDecompress zstdDecompress blob) = true ↔
         blob = BlobOneof.unset ∨
         (∃ b, blob = BlobOneof.zlib_data b ∧ isError (zlibDecompress b) = true) ∨
         (∃ b, blob = BlobOneof.zstd_data b ∧ isError (zstdDecompress b) = true)) := by
  refine ⟨fun b => rfl, fun blob => ?_⟩
  cases blob with
  | raw b => simp [decompress_blob, isError]
  | zlib_data b => simp [decompress_blob]
  | zstd_data b => simp [decompress_blob]
  | unset => simp [decompress_blob, isError]

/-- Claim C9: `close` on a writer with no open output is a no-op, a second
`close` immediately after a `close` is also a no-op (idempotence, and the
model is total so no error is possible), and after any `close` no output is
open and none is opened by empty (`None`) writes. -/
theorem C9_close_idempotent (s : ParquetBatchWriter) :
    (s.writer = none → s.close = s) ∧
    s.close.close = s.close ∧
    s.close.writer = none ∧
    (∀ file_size : Nat, s.close.write none file_size = s.close) := by
  obtain ⟨config, idx, w⟩ := s
  refine ⟨?_, rfl, rfl, fun _ => rfl⟩
  intro h
  cases w with
  | none => rfl
  | some w => simp at h

/-- Witness for C9 at a concrete writer state. -/
theorem C9_close_idempotent_witness :
    (ParquetBatchWriter.init {}).writer = none ∧
    (ParquetBatchWriter.init {}).close = ParquetBatchWriter.init {} ∧
    (ParquetBatchWriter.init {}).close.close = (ParquetBatchWriter.init {}).close ∧
    (ParquetBatchWriter.init {}).close.writer = none ∧
    (ParquetBatchWriter.init {}).close.write none 0 = (ParquetBatchWriter.init {}).close :=
  ⟨rfl,
   (C9_close_idempotent (ParquetBatchWriter.init {})).1 rfl,
   (C9_close_idempotent (ParquetBatchWriter.init {})).2.1,
   (C9_close_idempotent (ParquetBatchWriter.init {})).2.2.1,
   (C9_close_idempotent (ParquetBatchWriter.init {})).2.2.2 0⟩

theorem get_writer_fst_config (s : ParquetBatchWriter) :
    s.get_writer.1.writer_config = s.writer_config := by
  obtain ⟨config, idx, wr⟩ := s
  cases wr <;> rfl

theorem write_config_eq (s : ParquetBatchWriter) (batch : Option Nat) (file_size : Nat) :
    (s.write batch file_size).writer_config = s.writer_config := by
  obtain ⟨config, idx, wr⟩ := s
  cases batch with
  | none => rfl
  | some n =>
    cases wr with
    | none =>
      simp only [ParquetBatchWriter.write, ParquetBatchWriter.get_writer]
      split <;> rfl
    | some w =>
      simp only [ParquetBatchWriter.write, ParquetBatchWriter.get_writer]
      split <;> rfl

theorem write_preserves_row_bound (m : Nat) (hpos : 0 < m)
    (s : ParquetBatchWriter) (hm : s.writer_config.max_rows_per_file = some m)
    (hs : ∀ w : Writer, s.writer = some w → w.written_rows < m)
    (batch : Option Nat) (file_size : Nat) :
    ∀ w : Writer, (s.write batch file_size).writer = some w → w.written_rows < m := by
  cases batch with
  | none => exact hs
  | some n =>
    intro w hw
    simp only [ParquetBatchWriter.write] at hw
    split at hw
    · simp [ParquetBatchWriter.close] at hw
    · next hsw =>
      have hww : s.get_writer.2.write n = w := by simpa using hw
      have hcfg : s.get_writer.1.writer_config.max_rows_per_file = some m := by
        rw [get_writer_fst_config]; exact hm
      rw [Bool.not_eq_true] at hsw
      simp only [ParquetBatchWriter.should_switch_writer, hcfg] at hsw
      simp only [Bool.or_eq_false_iff, Bool.and_eq_false_iff,
        decide_eq_false_iff_not, Decidable.not_not] at hsw
      have hrows : ¬(m ≤ (s.get_writer.2.write n).written_rows) := by
        rcases hsw.1 with h | h
        · exact absurd h (by omega)
        · exact h
      rw [hww] at hrows
      omega

theorem write_opens_next_index (s : ParquetBatchWriter) (n file_size : Nat)
    (h : s.writer = none) :
    (s.write (some n) file_size).file_index = s.file_index + 1 := by
  obtain ⟨config, idx, wr⟩ := s
  cases wr with
  | some w => simp at h
  | none =>
    simp only [ParquetBatchWriter.write, ParquetBatchWriter.get_writer]
    split <;> rfl

/-- Claim C10: with `max_rows_per_file = some m`, `m > 0`, after any sequence
of writes either no output file is open or the open file's row count is
strictly below `m` (a write reaching the threshold closes the file before
returning); and a write from a closed state opens a file with a strictly
larger (incremented) file index. -/
theorem C10_open_file_rows_below_max (config : WriterConfig) (m : Nat)
    (hm : config.max_rows_per_file = some m) (hpos : 0 < m)
    (ops : List (Option Nat × Nat)) :
    (∀ w : Writer, (ParquetBatchWriter.writes config ops).writer = some w →
        w.written_rows < m) ∧
    (∀ (s : ParquetBatchWriter) (n file_size : Nat), s.writer = none →
        (s.write (some n) file_size).file_index = s.file_index + 1) := by
  constructor
  · have hgen : ∀ (l : List (Option Nat × Nat)) (s : ParquetBatchWriter),
        s.writer_config.max_rows_per_file = some m →
        (∀ w : Writer, s.writer = some w → w.written_rows < m) →
        ∀ w : Writer, (l.foldl (fun s op => s.write op.1 op.2) s).writer = some w →
          w.written_rows < m := by
      intro l
      induction l with
      | nil => intro s _ hs; exact hs
      | cons op rest ih =>
        intro s hcfg hs
        simp only [List.foldl_cons]
        refine ih _ ?_ ?_
        · rw [write_config_eq]; exact hcfg
        · exact write_preserves_row_bound m hpos s hcfg hs op.1 op.2
    exact hgen ops _ hm (fun w hw => by simp [ParquetBatchWriter.init] at hw)
  · intro s n file_size h
    exact write_opens_next_index s n file_size h

/-- Witness for C10 at a concrete configuration and operation list. -/
theorem C10_open_file_rows_below_max_witness :
    ({ max_rows_per_file := some 1000 } : WriterConfig).max_rows_per_file = some 1000 ∧
    0 < 1000 ∧
    ((∀ w : Writer, (ParquetBatchWriter.writes { max_rows_per_file := some 1000 }
        [(some 400, 0), (some 400, 0), (some 400, 0), (some 400, 0)]).writer = some w →
        w.written_rows < 1000) ∧
     (∀ (s : ParquetBatchWriter) (n file_size : Nat), s.writer = none →
        (s.write (some n) file_size).file_index = s.file_index + 1)) :=
  ⟨rfl, by decide,
   C10_open_file_rows_below_max { max_rows_per_file := some 1000 } 1000 rfl (by decide)
     [(some 400, 0), (some 400, 0), (some 400, 0), (some 400, 0)]⟩

theorem mapExcept_ok_get {α β : Type} (f : α → Except String β) :
    ∀ (xs : List α) (l : List β), mapExcept f xs = Except.ok l →
      ∀ (i : Nat) (y : β), l.get? i = some y →
        ∃ x, xs.get? i = some x ∧ f x = Except.ok y := by
  intro xs
  induction xs with
  | nil =>
    intro l hl i y hy
    simp only [mapExcept] at hl
    injection hl with hl
    subst hl
    simp at hy
  | cons x xs ih =>
    intro l hl i y hy
    simp only [mapExcept] at hl
    cases hfx : f x with
    | error e => rw [hfx] at hl; cases hl
    | ok y0 =>
      rw [hfx] at hl
      cases hrest : mapExcept f xs with
      | error e => rw [hrest] at hl; cases hl
      | ok ys =>
        rw [hrest] at hl
        injection hl with hl
        subst hl
        cases i with
        | zero =>
          simp only [List.get?_cons_zero, Option.some.injEq] at hy
          subst hy
          exact ⟨x, rfl, hfx⟩
        | succ i =>
          simp only [List.get?_cons_succ] at hy ⊢
          exact ih ys hrest i y hy

theorem zip5_get? {α₁ α₂ α₃ α₄ α₅ : Type}
    (as : List α₁) :
    ∀ (bs : List α₂) (cs : List α₃) (ds : List α₄) (es : List α₅)
      (i : Nat) (q : α₁ × α₂ × α₃ × α₄ × α₅),
      (zip5 as bs cs ds es).get? i = some q →
        as.get? i = some q.1 ∧ bs.get? i = some q.2.1 ∧ cs.get? i = some q.2.2.1 ∧
        ds.get? i = some q.2.2.2.1 ∧ es.get? i = some q.2.2.2.2 := by
  induction as with
  | nil => intro bs cs ds es i q h; simp [zip5] at h
  | cons a as ih =>
    intro bs cs ds es i q h
    cases bs with
    | nil => simp [zip5] at h
    | cons b bs =>
      cases cs with
      | nil => simp [zip5] at h
      | cons c cs =>
        cases ds with
        | nil => simp [zip5] at h
        | cons d ds =>
          cases es with
          | nil => simp [zip5] at h
          | cons e es =>
            cases i with
            | zero =>
              simp only [zip5, List.get?_cons_zero, Option.some.injEq] at h
              subst h
              simp
            | succ i =>
              simp only [zip5, List.get?_cons_succ] at h ⊢
              exact ih bs cs ds es i q h

theorem ite_none_iff {γ : Type} (cond : Prop) [Decidable cond] (x : γ) :
    ((if cond then none else some x) = none ↔ cond) ∧
    (¬cond → (if cond then none else some x) = some x) := by
  split_ifs with hc <;> simp [hc]

theorem decode_dense_info_one_fields (self : PrimitiveBlockDecoder)
    (v t c u usid : Int) (oi : OsmInfo)
    (h : self.decode_dense_info_one v t c u usid = Except.ok oi) :
    (oi.version = none ↔ v = 0) ∧ (v ≠ 0 → oi.version = some v) ∧
    (oi.timestamp = none ↔ t = 0) ∧ (t ≠ 0 → oi.timestamp = some t) ∧
    (oi.changeset = none ↔ c = 0) ∧ (c ≠ 0 → oi.changeset = some c) ∧
    (oi.uid = none ↔ u = 0) ∧ (u ≠ 0 → oi.uid = some u) ∧
    (oi.user_sid = none ↔ usid = 0) ∧
    (usid ≠ 0 → ∃ str, self.decode_string usid = Except.ok str ∧
      oi.user_sid = some str) := by
  unfold PrimitiveBlockDecoder.decode_dense_info_one at h
  by_cases h0 : usid = 0
  · rw [if_pos h0] at h
    injection h with h
    subst h
    exact ⟨(ite_none_iff (v = 0) v).1, (ite_none_iff (v = 0) v).2,
           (ite_none_iff (t = 0) t).1, (ite_none_iff (t = 0) t).2,
           (ite_none_iff (c = 0) c).1, (ite_none_iff (c = 0) c).2,
           (ite_none_iff (u = 0) u).1, (ite_none_iff (u = 0) u).2,
           by simp [h0], fun hne => absurd h0 hne⟩
  · rw [if_neg h0] at h
    cases hds : self.decode_string usid with
    | error e => rw [hds] at h; cases h
    | ok str =>
      rw [hds] at h
      simp only [Except.map] at h
      injection h with h
      subst h
      exact ⟨(ite_none_iff (v = 0) v).1, (ite_none_iff (v = 0) v).2,
             (ite_none_iff (t = 0) t).1, (ite_none_iff (t = 0) t).2,
             (ite_none_iff (c = 0) c).1, (ite_none_iff (c = 0) c).2,
             (ite_none_iff (u = 0) u).1, (ite_none_iff (u = 0) u).2,
             by simp [h0], fun _ => ⟨str, rfl, rfl⟩⟩

/-- Claim C7: for every decoded `Info` and every record produced by
`decode_dense_info`, each optional field of the resulting `OsmInfo` is unset
(`none`) iff the raw wire value at that position is zero, and a nonzero raw
value is kept (`user_sid` resolved through the string table).  For the dense
form the raw values are the per-record wire entries (the `delta_decode` the
source applies yields them unchanged, see C1). -/
theorem C7_zero_raw_value_is_absent (self : PrimitiveBlockDecoder) :
    (∀ (info : Info) (oi : OsmInfo), self.decode_info info = Except.ok oi →
       (oi.version = none ↔ info.version = 0) ∧
       (info.version ≠ 0 → oi.version = some info.version) ∧
       (oi.timestamp = none ↔ info.timestamp = 0) ∧
       (info.timestamp ≠ 0 → oi.timestamp = some info.timestamp) ∧
       (oi.changeset = none ↔ info.changeset = 0) ∧
       (info.changeset ≠ 0 → oi.changeset = some info.changeset) ∧
       (oi.uid = none ↔ info.uid = 0) ∧
       (info.uid ≠ 0 → oi.uid = some info.uid) ∧
       (oi.user_sid = none ↔ info.user_sid = 0) ∧
       (info.user_sid ≠ 0 → ∃ str, self.decode_string info.user_sid = Except.ok str ∧
         oi.user_sid = some str)) ∧
    (∀ (dense : DenseInfo) (l : List OsmInfo) (i : Nat) (oi : OsmInfo),
       self.decode_dense_info dense = Except.ok l → l.get? i = some oi →
       ∃ v t c u usid : Int,
         dense.version.get? i = some v ∧ dense.timestamp.get? i = some t ∧
         dense.changeset.get? i = some c ∧ dense.uid.get? i = some u ∧
         dense.user_sid.get? i = some usid ∧
         (oi.version = none ↔ v = 0) ∧ (v ≠ 0 → oi.version = some v) ∧
         (oi.timestamp = none ↔ t = 0) ∧ (t ≠ 0 → oi.timestamp = some t) ∧
         (oi.changeset = none ↔ c = 0) ∧ (c ≠ 0 → oi.changeset = some c) ∧
         (oi.uid = none ↔ u = 0) ∧ (u ≠ 0 → oi.uid = some u) ∧
         (oi.user_sid = none ↔ usid = 0) ∧
         (usid ≠ 0 → ∃ str, self.decode_string usid = Except.ok str ∧
           oi.user_sid = some str)) := by
  constructor
  · intro info oi h
    have h' : self.decode_dense_info_one info.version info.timestamp info.changeset
        info.uid info.user_sid = Except.ok oi := h
    exact decode_dense_info_one_fields self _ _ _ _ _ oi h'
  · intro dense l i oi hl hoi
    unfold PrimitiveBlockDecoder.decode_dense_info at hl
    obtain ⟨q, hq, hfq⟩ := mapExcept_ok_get _ _ l hl i oi hoi
    obtain ⟨h1, h2, h3, h4, h5⟩ := zip5_get? _ _ _ _ _ i q hq
    rw [delta_decode_eq] at h2 h3 h4 h5
    refine ⟨q.1, q.2.1, q.2.2.1, q.2.2.2.1, q.2.2.2.2, h1, h2, h3, h4, h5, ?_⟩
    exact decode_dense_info_one_fields self _ _ _ _ _ oi hfq

/-- Witness for C7 at a concrete string table, `Info` and `DenseInfo`. -/
theorem C7_zero_raw_value_is_absent_witness :
    (decoderC7.decode_info infoC7 = Except.ok oiC7) ∧
    ((oiC7.version = none ↔ infoC7.version = 0) ∧
     (infoC7.version ≠ 0 → oiC7.version = some infoC7.version) ∧
     (oiC7.timestamp = none ↔ infoC7.timestamp = 0) ∧
     (infoC7.timestamp ≠ 0 → oiC7.timestamp = some infoC7.timestamp) ∧
     (oiC7.changeset = none ↔ infoC7.changeset = 0) ∧
     (infoC7.changeset ≠ 0 → oiC7.changeset = some infoC7.changeset) ∧
     (oiC7.uid = none ↔ infoC7.uid = 0) ∧
     (infoC7.uid ≠ 0 → oiC7.uid = some infoC7.uid) ∧
     (oiC7.user_sid = none ↔ infoC7.user_sid = 0) ∧
     (infoC7.user_sid ≠ 0 → ∃ str, decoderC7.decode_string infoC7.user_sid = Except.ok str ∧
       oiC7.user_sid = some str)) ∧
    (decoderC7.decode_dense_info denseC7 = Except.ok [oiDenseC7]) ∧
    ([oiDenseC7].get? 0 = some oiDenseC7) ∧
    (∃ v t c u usid : Int,
       denseC7.version.get? 0 = some v ∧ denseC7.timestamp.get? 0 = some t ∧
       denseC7.changeset.get? 0 = some c ∧ denseC7.uid.get? 0 = some u ∧
       denseC7.user_sid.get? 0 = some usid ∧
       (oiDenseC7.version = none ↔ v = 0) ∧ (v ≠ 0 → oiDenseC7.version = some v) ∧
       (oiDenseC7.timestamp = none ↔ t = 0) ∧ (t ≠ 0 → oiDenseC7.timestamp = some t) ∧
       (oiDenseC7.changeset = none ↔ c = 0) ∧ (c ≠ 0 → oiDenseC7.changeset = some c) ∧
       (oiDenseC7.uid = none ↔ u = 0) ∧ (u ≠ 0 → oiDenseC7.uid = some u) ∧
       (oiDenseC7.user_sid = none ↔ usid = 0) ∧
       (usid ≠ 0 → ∃ str, decoderC7.decode_string usid = Except.ok str ∧
         oiDenseC7.user_sid = some str)) :=
  ⟨by decide,
   (C7_zero_raw_value_is_absent decoderC7).1 infoC7 oiC7 (by decide),
   by decide,
   rfl,
   (C7_zero_raw_value_is_absent decoderC7).2 denseC7 [oiDenseC7] 0 oiDenseC7 (by decide) rfl⟩

end Osmpq
